import Mathlib

/-!
Verification of the startup-orchestration layer of the anvil node
(`src/anvil/src/cmd.rs`): argument model, config builder, account
generator assembly, and the shutdown coordinator installed in
`NodeArgs::run`.

Machine integers are embedded as `Nat` with explicit bounds where the
width matters (`u64` values carry a `< 2^64` hypothesis, `U256`
saturation uses an explicit maximum). Types and constants that live
outside the given source file (the `NodeConfig` builder, the
`AccountGenerator` struct, the `ethers`/anvil constants, and the
clap-generated cross-field validation) are modelled from the spec and
marked as such in their doc comments.
-/

/-- Maximum value representable by the 256-bit unsigned integer type
used for balances (`ethers::types::U256`). -/
def U256_MAX : Nat := 2 ^ 256 - 1

/-- Modelled from the spec: `WEI_IN_ETHER` from the `ethers` crate, the
number of minimal units (wei) in one whole currency unit, 10^18. -/
def WEI_IN_ETHER : Nat := 10 ^ 18

/-- Modelled from the spec: `CHAIN_ID`, the fixed default chain id
constant from the anvil config module (not under `src/`). -/
def CHAIN_ID : Nat := 31337

/-- Modelled from the spec: `DEFAULT_MNEMONIC`, the fixed, publicly
known default seed phrase from the anvil config module. -/
def DEFAULT_MNEMONIC : String :=
  "test test test test test test test test test test test junk"

/-- Modelled from the spec: the standard Ethereum derivation-path
prefix used when no explicit template is supplied. -/
def DEFAULT_DERIVATION_PATH : String := "m/44\x27/60\x27/0\x27/0/"

/-- `U256::saturating_mul` on the mathematical values: the exact
product when it is representable, clamped to `U256_MAX` otherwise. -/
def saturatingMul (a b : Nat) : Nat :=
  if a * b ≤ U256_MAX then a * b else U256_MAX

/-- Modelled from the spec: the closed hardfork enumeration (external
to `cmd.rs`); the particular constructors are irrelevant to the claims,
only that the value passes through the builder unchanged. -/
inductive Hardfork
  | latest
  | london
  | berlin
deriving DecidableEq

/-- Modelled from the spec: the closed mempool transaction-ordering
enumeration; carried as an opaque selector value. -/
inductive TransactionOrder
  | fees
  | fifo
deriving DecidableEq

/-- Modelled from the spec: `anvil_server::ServerConfig` is an external
collaborator passed through the builder unchanged; its contents are out
of scope, so it is embedded as the unit type. -/
abbrev ServerConfig := Unit

/-- EVM-related arguments (`AnvilEvmArgs` in `cmd.rs`). `u64` fields
are embedded as `Nat`; the fork URL and host are kept as strings. -/
structure AnvilEvmArgs where
  fork_url : Option String
  fork_block_number : Option Nat
  fork_retry_backoff : Option Nat
  no_storage_caching : Bool
  gas_limit : Option Nat
  gas_price : Option Nat
  block_base_fee_per_gas : Option Nat
  chain_id : Option Nat
deriving DecidableEq

/-- Launch parameters (`NodeArgs` in `cmd.rs`). `port` is a `u16`,
`accounts` and `balance` are `u64`; the `IpAddr` host is embedded as a
string since its structure is never inspected here. -/
structure NodeArgs where
  evm_opts : AnvilEvmArgs
  port : Nat
  accounts : Nat
  balance : Nat
  mnemonic : Option String
  derivation_path : Option String
  server_config : ServerConfig
  silent : Bool
  hardfork : Hardfork
  block_time : Option Nat
  config_out : Option String
  no_mining : Bool
  host : Option String
  order : TransactionOrder
deriving DecidableEq

/-- Modelled from the spec: the `AccountGenerator` spec assembled by
`cmd.rs` — account count, seed phrase, optional derivation-path
template, chain id (the struct itself lives in the anvil config module,
not under `src/`). -/
structure AccountGenerator where
  amount : Nat
  phrase : String
  derivation_path : Option String
  chain_id : Nat
deriving DecidableEq

/-- Modelled from the spec: `AccountGenerator::new(amount)` starts from
the given count with no derivation-path template; the phrase and chain
id are immediately overwritten by `cmd.rs` before use. -/
def AccountGenerator.new (amount : Nat) : AccountGenerator :=
  { amount := amount, phrase := "", derivation_path := none, chain_id := CHAIN_ID }

/-- Builder step `AccountGenerator::phrase`. -/
def AccountGenerator.withPhrase (g : AccountGenerator) (p : String) : AccountGenerator :=
  { g with phrase := p }

/-- Builder step `AccountGenerator::chain_id`. -/
def AccountGenerator.withChainId (g : AccountGenerator) (c : Nat) : AccountGenerator :=
  { g with chain_id := c }

/-- Builder step `AccountGenerator::derivation_path`. -/
def AccountGenerator.withDerivationPath (g : AccountGenerator) (p : String) : AccountGenerator :=
  { g with derivation_path := some p }

/-- Modelled from the spec: the resolved derivation-path template — the
explicit template when given, else the standard Ethereum path prefix. -/
def AccountGenerator.resolvedDerivationPath (g : AccountGenerator) : String :=
  g.derivation_path.getD DEFAULT_DERIVATION_PATH

/-- Modelled from the spec: the immutable `NodeConfig` value produced
by the builder (the struct lives in the anvil config module, not under
`src/`); block time is held in seconds after the `Duration::from_secs`
conversion. -/
structure NodeConfig where
  gas_limit : Option Nat
  gas_price : Option Nat
  hardfork : Hardfork
  block_time : Option Nat
  no_mining : Bool
  account_generator : Option AccountGenerator
  genesis_balance : Nat
  port : Nat
  eth_rpc_url : Option String
  base_fee : Option Nat
  fork_block_number : Option Nat
  no_storage_caching : Bool
  server_config : ServerConfig
  host : Option String
  silent : Bool
  config_out : Option String
  chain_id : Nat
  transaction_order : TransactionOrder
deriving DecidableEq

/-- Modelled from the spec: `NodeConfig::default()`. Every field of the
default is overwritten by the builder chain in `into_node_config`, so
the particular default values are unobservable to the claims. -/
def NodeConfig.default : NodeConfig :=
  { gas_limit := none
    gas_price := none
    hardfork := Hardfork.latest
    block_time := none
    no_mining := false
    account_generator := none
    genesis_balance := 0
    port := 8545
    eth_rpc_url := none
    base_fee := none
    fork_block_number := none
    no_storage_caching := false
    server_config := ()
    host := none
    silent := false
    config_out := none
    chain_id := CHAIN_ID
    transaction_order := TransactionOrder.fees }

/-- Modelled from the spec: builder step `with_gas_limit` (pure field
pass-through). -/
def NodeConfig.with_gas_limit (c : NodeConfig) (v : Option Nat) : NodeConfig :=
  { c with gas_limit := v }

/-- Modelled from the spec: builder step `with_gas_price`. -/
def NodeConfig.with_gas_price (c : NodeConfig) (v : Option Nat) : NodeConfig :=
  { c with gas_price := v }

/-- Modelled from the spec: builder step `with_hardfork`. -/
def NodeConfig.with_hardfork (c : NodeConfig) (v : Hardfork) : NodeConfig :=
  { c with hardfork := v }

/-- Modelled from the spec: builder step `with_blocktime` (already in
seconds after the `Duration::from_secs` conversion). -/
def NodeConfig.with_blocktime (c : NodeConfig) (v : Option Nat) : NodeConfig :=
  { c with block_time := v }

/-- Modelled from the spec: builder step `with_no_mining`. -/
def NodeConfig.with_no_mining (c : NodeConfig) (v : Bool) : NodeConfig :=
  { c with no_mining := v }

/-- Modelled from the spec: builder step `with_account_generator`. -/
def NodeConfig.with_account_generator (c : NodeConfig) (v : AccountGenerator) : NodeConfig :=
  { c with account_generator := some v }

/-- Modelled from the spec: builder step `with_genesis_balance`. -/
def NodeConfig.with_genesis_balance (c : NodeConfig) (v : Nat) : NodeConfig :=
  { c with genesis_balance := v }

/-- Modelled from the spec: builder step `with_port`. -/
def NodeConfig.with_port (c : NodeConfig) (v : Nat) : NodeConfig :=
  { c with port := v }

/-- Modelled from the spec: builder step `with_eth_rpc_url`. -/
def NodeConfig.with_eth_rpc_url (c : NodeConfig) (v : Option String) : NodeConfig :=
  { c with eth_rpc_url := v }

/-- Modelled from the spec: builder step `with_base_fee`. -/
def NodeConfig.with_base_fee (c : NodeConfig) (v : Option Nat) : NodeConfig :=
  { c with base_fee := v }

/-- Modelled from the spec: builder step `with_fork_block_number`. -/
def NodeConfig.with_fork_block_number (c : NodeConfig) (v : Option Nat) : NodeConfig :=
  { c with fork_block_number := v }

/-- Modelled from the spec: builder step `with_storage_caching` (the
`cmd.rs` call site passes the `no_storage_caching` flag). -/
def NodeConfig.with_storage_caching (c : NodeConfig) (v : Bool) : NodeConfig :=
  { c with no_storage_caching := v }

/-- Modelled from the spec: builder step `with_server_config`. -/
def NodeConfig.with_server_config (c : NodeConfig) (v : ServerConfig) : NodeConfig :=
  { c with server_config := v }

/-- Modelled from the spec: builder step `with_host`. -/
def NodeConfig.with_host (c : NodeConfig) (v : Option String) : NodeConfig :=
  { c with host := v }

/-- Modelled from the spec: builder step `set_silent`. -/
def NodeConfig.set_silent (c : NodeConfig) (v : Bool) : NodeConfig :=
  { c with silent := v }

/-- Modelled from the spec: builder step `set_config_out`. -/
def NodeConfig.set_config_out (c : NodeConfig) (v : Option String) : NodeConfig :=
  { c with config_out := v }

/-- Modelled from the spec: builder step `with_chain_id`. -/
def NodeConfig.with_chain_id (c : NodeConfig) (v : Nat) : NodeConfig :=
  { c with chain_id := v }

/-- Modelled from the spec: builder step `with_transaction_order`. -/
def NodeConfig.with_transaction_order (c : NodeConfig) (v : TransactionOrder) : NodeConfig :=
  { c with transaction_order := v }

/-- `NodeArgs::account_generator` (`cmd.rs` lines 146–157): start from
the account count, set the default phrase and the resolved chain id,
then override the phrase and derivation path when given explicitly. -/
def NodeArgs.account_generator (a : NodeArgs) : AccountGenerator :=
  let g := ((AccountGenerator.new a.accounts).withPhrase DEFAULT_MNEMONIC).withChainId
    (a.evm_opts.chain_id.getD CHAIN_ID)
  let g := match a.mnemonic with
    | some m => g.withPhrase m
    | none => g
  match a.derivation_path with
  | some d => g.withDerivationPath d
  | none => g

/-- `NodeArgs::into_node_config` (`cmd.rs` lines 122–144): the full
builder chain, applied in source order, with the genesis balance
computed by `WEI_IN_ETHER.saturating_mul(self.balance.into())`. -/
def NodeArgs.into_node_config (a : NodeArgs) : NodeConfig :=
  let genesis_balance := saturatingMul WEI_IN_ETHER a.balance
  ((((((((((((((((((NodeConfig.default.with_gas_limit
    a.evm_opts.gas_limit).with_gas_price
    a.evm_opts.gas_price).with_hardfork
    a.hardfork).with_blocktime
    a.block_time).with_no_mining
    a.no_mining).with_account_generator
    a.account_generator).with_genesis_balance
    genesis_balance).with_port
    a.port).with_eth_rpc_url
    a.evm_opts.fork_url).with_base_fee
    a.evm_opts.block_base_fee_per_gas).with_fork_block_number
    a.evm_opts.fork_block_number).with_storage_caching
    a.evm_opts.no_storage_caching).with_server_config
    a.server_config).with_host
    a.host).set_silent
    a.silent).set_config_out
    a.config_out).with_chain_id
    (a.evm_opts.chain_id.getD CHAIN_ID)).with_transaction_order
    a.order)

/-- Modelled from the spec: the clap-generated cross-field check behind
`conflicts_with = "block-time"` on `no_mining` — supplying both the
interval-mining period and disabled-mining fails with an error naming
both flags. -/
def validateMining (block_time : Option Nat) (no_mining : Bool) : Except String Unit :=
  if block_time.isSome && no_mining then
    Except.error
      "error: the argument --block-time cannot be used with --no-mining"
  else
    Except.ok ()

/-- Modelled from the spec: the clap-generated checks behind
`requires = "fork-url"` on the three fork-only options — each fails
with a "requires fork endpoint" error naming itself when no fork
endpoint is supplied. -/
def validateForkDeps (e : AnvilEvmArgs) : Except String Unit :=
  if e.fork_url.isNone && e.fork_block_number.isSome then
    Except.error "--fork-block-number requires fork endpoint --fork-url"
  else if e.fork_url.isNone && e.fork_retry_backoff.isSome then
    Except.error "--fork-retry-backoff requires fork endpoint --fork-url"
  else if e.fork_url.isNone && e.no_storage_caching then
    Except.error "--no-storage-caching requires fork endpoint --fork-url"
  else
    Except.ok ()

/-- State of the shutdown coordinator installed by `NodeArgs::run`:
the captured fork handle, the shared `AtomicUsize` counter `running`,
plus ghost observations — how many times the cleanup branch ran, how
many fork-cache flushes were issued, and the exit status passed to
`process::exit`, when reached. -/
structure ShutdownState where
  fork : Option Unit
  running : Nat
  cleanups : Nat
  flushes : Nat
  exit_code : Option Nat
deriving DecidableEq

/-- The ctrl-c handler body (`cmd.rs` lines 169–179): atomically
read-and-increment `running`; exactly when the pre-increment value was
zero, flush the fork cache when a fork is configured and exit with
status 0. The atomic `fetch_add` linearizes concurrently delivered
interrupts, so a run is a sequence of these steps. -/
def ctrlcHandler (s : ShutdownState) : ShutdownState :=
  let prev := s.running
  let s1 := { s with running := s.running + 1 }
  if prev = 0 then
    let s2 := { s1 with cleanups := s1.cleanups + 1 }
    let s3 := match s2.fork with
      | some _ => { s2 with flushes := s2.flushes + 1 }
      | none => s2
    { s3 with exit_code := some 0 }
  else
    s1

/-- The coordinator state armed by `run`: counter at zero, nothing yet
cleaned, flushed, or exited. -/
def initialShutdownState (fork : Option Unit) : ShutdownState :=
  { fork := fork, running := 0, cleanups := 0, flushes := 0, exit_code := none }

/-- A sequence of `n` delivered interrupts, each running the handler
body once (the order is the linearization order of the atomic
`fetch_add`). -/
def runInterrupts (n : Nat) (s : ShutdownState) : ShutdownState :=
  match n with
  | 0 => s
  | Nat.succ m => runInterrupts m (ctrlcHandler s)

/-- The observable event order of `NodeArgs::run` (`cmd.rs`
lines 162–183): build the configuration, spawn the runtime with it,
install (arm) the ctrl-c handler, then await the runtime handle. -/
inductive RunEvent
  | buildConfig
  | spawnRuntime
  | armHandler
  | awaitHandle
deriving DecidableEq

/-- The straight-line trace of `NodeArgs::run` in source order. -/
def runTrace : List RunEvent :=
  [RunEvent.buildConfig, RunEvent.spawnRuntime, RunEvent.armHandler, RunEvent.awaitHandle]

/-- Well-formedness of embedded machine-integer fields: `port` fits in
16 bits, `accounts` and `balance` in 64 bits (the Rust types `u16` and
`u64`). -/
def NodeArgs.WF (a : NodeArgs) : Prop :=
  a.port < 2 ^ 16 ∧ a.accounts < 2 ^ 64 ∧ a.balance < 2 ^ 64

/-- A concrete argument record holding the clap default values
(`port` 8545, `accounts` 10, `balance` 10000, no explicit options). -/
def exampleArgs : NodeArgs :=
  { evm_opts :=
      { fork_url := none
        fork_block_number := none
        fork_retry_backoff := none
        no_storage_caching := false
        gas_limit := none
        gas_price := none
        block_base_fee_per_gas := none
        chain_id := none }
    port := 8545
    accounts := 10
    balance := 10000
    mnemonic := none
    derivation_path := none
    server_config := ()
    silent := false
    hardfork := Hardfork.latest
    block_time := none
    config_out := none
    no_mining := false
    host := none
    order := TransactionOrder.fees }

/-- Helper: upper bound of the saturating multiplication. -/
theorem saturatingMul_le (a b : Nat) : saturatingMul a b ≤ U256_MAX := by
  unfold saturatingMul
  split
  · assumption
  · exact le_refl _

/-- Helper: the genesis balance placed into the configuration is the
saturating product of `WEI_IN_ETHER` and the balance argument. -/
theorem into_node_config_genesis (a : NodeArgs) :
    (a.into_node_config).genesis_balance = saturatingMul WEI_IN_ETHER a.balance := rfl

/-- Helper: the chain id placed into the configuration. -/
theorem into_node_config_chain_id (a : NodeArgs) :
    (a.into_node_config).chain_id = a.evm_opts.chain_id.getD CHAIN_ID := rfl

/-- Helper: the account generator placed into the configuration. -/
theorem into_node_config_account_generator (a : NodeArgs) :
    (a.into_node_config).account_generator = some a.account_generator := rfl

/-- Helper: the port placed into the configuration. -/
theorem into_node_config_port (a : NodeArgs) :
    (a.into_node_config).port = a.port := rfl

/-- Helper: full characterization of the assembled account generator:
count from `accounts`, phrase from the explicit mnemonic with the
default phrase as fallback, the explicit derivation-path template when
given, and the resolved chain id. -/
theorem account_generator_eq (a : NodeArgs) :
    a.account_generator =
      { amount := a.accounts
        phrase := a.mnemonic.getD DEFAULT_MNEMONIC
        derivation_path := a.derivation_path
        chain_id := a.evm_opts.chain_id.getD CHAIN_ID } := by
  cases hm : a.mnemonic <;> cases hd : a.derivation_path <;>
    simp [NodeArgs.account_generator, AccountGenerator.new,
      AccountGenerator.withPhrase, AccountGenerator.withChainId,
      AccountGenerator.withDerivationPath, hm, hd]

/-- Helper: one handler step always increments the shared counter. -/
theorem ctrlcHandler_running (s : ShutdownState) :
    (ctrlcHandler s).running = s.running + 1 := by
  unfold ctrlcHandler
  cases hf : s.fork <;> by_cases h : s.running = 0 <;> simp [h, hf]

/-- Helper: one handler step runs the cleanup branch exactly when the
pre-increment counter value is zero. -/
theorem ctrlcHandler_cleanups (s : ShutdownState) :
    (ctrlcHandler s).cleanups = s.cleanups + (if s.running = 0 then 1 else 0) := by
  unfold ctrlcHandler
  cases hf : s.fork <;> by_cases h : s.running = 0 <;> simp [h, hf]

/-- Helper: once the counter is already positive, further interrupts
leave the cleanup count unchanged. -/
theorem runInterrupts_stable (n : Nat) (s : ShutdownState) (h : 1 ≤ s.running) :
    (runInterrupts n s).cleanups = s.cleanups := by
  induction n generalizing s with
  | zero => rfl
  | succ m ih =>
      show (runInterrupts m (ctrlcHandler s)).cleanups = s.cleanups
      rw [ih (ctrlcHandler s) (by rw [ctrlcHandler_running]; omega)]
      rw [ctrlcHandler_cleanups]
      have hz : ¬ s.running = 0 := by omega
      simp [hz]

/-- Claim C1: among any number of delivered interrupts (linearized by
the atomic read-and-increment on the shared counter), a handler step
runs the cleanup branch exactly when its pre-increment counter value is
zero, and over any whole run from the armed state the cleanup branch
runs exactly once when at least one interrupt arrives — never more. -/
theorem shutdown_cleanup_exactly_once (fork : Option Unit) (n : Nat) :
    (∀ s : ShutdownState,
      (ctrlcHandler s).cleanups = s.cleanups + (if s.running = 0 then 1 else 0)) ∧
    (1 ≤ n → (runInterrupts n (initialShutdownState fork)).cleanups = 1) ∧
    (runInterrupts n (initialShutdownState fork)).cleanups ≤ 1 := by
  have hrun : ∀ m : Nat, 1 ≤ m →
      (runInterrupts m (initialShutdownState fork)).cleanups = 1 := by
    intro m hm
    obtain ⟨k, rfl⟩ : ∃ k, m = k + 1 := ⟨m - 1, by omega⟩
    show (runInterrupts k (ctrlcHandler (initialShutdownState fork))).cleanups = 1
    rw [runInterrupts_stable k (ctrlcHandler (initialShutdownState fork))
      (by rw [ctrlcHandler_running]; simp [initialShutdownState])]
    rw [ctrlcHandler_cleanups]
    simp [initialShutdownState]
  refine ⟨ctrlcHandler_cleanups, hrun n, ?_⟩
  cases n with
  | zero => simp [runInterrupts, initialShutdownState]
  | succ k => rw [hrun (k + 1) (by omega)]

/-- Witness for C1 at two delivered interrupts. -/
theorem shutdown_cleanup_exactly_once_witness :
    (runInterrupts 2 (initialShutdownState (some ()))).cleanups = 1 :=
  (shutdown_cleanup_exactly_once (some ()) 2).2.1 (by decide)

/-- Claim C2: on the first-observed interrupt (pre-increment counter
zero), the fork cache is flushed exactly when a fork is configured, and
the process exits with status 0 unconditionally. -/
theorem first_interrupt_flush_and_exit (s : ShutdownState) (h : s.running = 0) :
    (ctrlcHandler s).flushes = s.flushes + (if s.fork.isSome then 1 else 0) ∧
    (ctrlcHandler s).exit_code = some 0 := by
  cases hf : s.fork <;> simp [ctrlcHandler, h, hf]

/-- Witness for C2 at the armed state with a configured fork. -/
theorem first_interrupt_flush_and_exit_witness :
    (ctrlcHandler (initialShutdownState (some ()))).flushes =
      (initialShutdownState (some ())).flushes + 1 ∧
    (ctrlcHandler (initialShutdownState (some ()))).exit_code = some 0 := by
  have h := first_interrupt_flush_and_exit (initialShutdownState (some ())) rfl
  simpa [initialShutdownState] using h

/-- Claim C3: for every 64-bit balance value in whole currency units,
the genesis balance computed by the config builder is the saturating
product with 10^18 — the exact product when representable, clamped to
the maximum 256-bit value otherwise — and balance 1 yields exactly
10^18. -/
theorem genesis_balance_saturating (a : NodeArgs) (_h : a.balance < 2 ^ 64) :
    (WEI_IN_ETHER * a.balance ≤ U256_MAX →
      (a.into_node_config).genesis_balance = WEI_IN_ETHER * a.balance) ∧
    (U256_MAX < WEI_IN_ETHER * a.balance →
      (a.into_node_config).genesis_balance = U256_MAX) ∧
    (a.balance = 1 → (a.into_node_config).genesis_balance = 10 ^ 18) := by
  refine ⟨?_, ?_, ?_⟩
  · intro hle
    rw [into_node_config_genesis]
    simp [saturatingMul, hle]
  · intro hgt
    rw [into_node_config_genesis]
    simp [saturatingMul]
    omega
  · intro h1
    rw [into_node_config_genesis, h1]
    norm_num [saturatingMul, WEI_IN_ETHER, U256_MAX]

/-- Witness for C3 at balance 1. -/
theorem genesis_balance_saturating_witness :
    (({ exampleArgs with balance := 1 } : NodeArgs).into_node_config).genesis_balance =
      10 ^ 18 :=
  (genesis_balance_saturating { exampleArgs with balance := 1 } (by decide)).2.2 rfl

/-- Claim C9: the saturation clamp is unreachable for 64-bit balances:
the product 10^18 times any value below 2^64 fits in 256 bits, so the
saturating multiplication returns the exact mathematical product. -/
theorem genesis_saturation_unreachable (b : Nat) (h : b < 2 ^ 64) :
    WEI_IN_ETHER * b ≤ U256_MAX ∧
    saturatingMul WEI_IN_ETHER b = WEI_IN_ETHER * b := by
  have hb : WEI_IN_ETHER * b ≤ WEI_IN_ETHER * (2 ^ 64 - 1) :=
    Nat.mul_le_mul_left _ (by omega)
  have hc : WEI_IN_ETHER * (2 ^ 64 - 1) ≤ U256_MAX := by
    norm_num [WEI_IN_ETHER, U256_MAX]
  have hle : WEI_IN_ETHER * b ≤ U256_MAX := le_trans hb hc
  exact ⟨hle, by simp [saturatingMul, hle]⟩

/-- Witness for C9 at the largest 64-bit balance. -/
theorem genesis_saturation_unreachable_witness :
    WEI_IN_ETHER * (2 ^ 64 - 1) ≤ U256_MAX ∧
    saturatingMul WEI_IN_ETHER (2 ^ 64 - 1) = WEI_IN_ETHER * (2 ^ 64 - 1) :=
  genesis_saturation_unreachable (2 ^ 64 - 1) (by norm_num)

/-- Claim C4: `into_node_config` is deterministic — equal argument
records yield value-equal configurations. The transform is embedded as
a pure function of the argument record alone (its output depends on no
other state), which is the side-effect-freedom the claim states. -/
theorem into_node_config_deterministic (a b : NodeArgs) (h : a = b) :
    a.into_node_config = b.into_node_config := by rw [h]

/-- Witness for C4 at the default argument record. -/
theorem into_node_config_deterministic_witness :
    exampleArgs.into_node_config = exampleArgs.into_node_config :=
  into_node_config_deterministic exampleArgs exampleArgs rfl

/-- Claim C5: the account generator spec is assembled from the account
count, the resolved chain id (explicit value or the fixed default — the
same value placed into the configuration), the resolved phrase
(explicit mnemonic or the fixed default phrase), and the resolved
derivation-path template (explicit path or the standard Ethereum
prefix). -/
theorem account_generator_assembly (a : NodeArgs) :
    (a.account_generator).amount = a.accounts ∧
    (a.account_generator).phrase = a.mnemonic.getD DEFAULT_MNEMONIC ∧
    (a.account_generator).resolvedDerivationPath =
      a.derivation_path.getD DEFAULT_DERIVATION_PATH ∧
    (a.account_generator).chain_id = a.evm_opts.chain_id.getD CHAIN_ID ∧
    (a.into_node_config).chain_id = (a.account_generator).chain_id := by
  rw [account_generator_eq, into_node_config_chain_id]
  simp [AccountGenerator.resolvedDerivationPath]

/-- Claim C10: `into_node_config` (with the `account_generator`
assembly it calls) is total: it returns a configuration for every
argument record, and on well-formed machine-integer inputs the
configuration's fields stay in range — the genesis balance never
exceeds the 256-bit maximum, the port is the 16-bit argument, and the
generator is installed with the 64-bit account count. -/
theorem into_node_config_total (a : NodeArgs) :
    (∃ c : NodeConfig, a.into_node_config = c) ∧
    (a.WF →
      (a.into_node_config).genesis_balance ≤ U256_MAX ∧
      (a.into_node_config).port < 2 ^ 16 ∧
      (a.into_node_config).account_generator = some a.account_generator ∧
      (a.account_generator).amount < 2 ^ 64) := by
  refine ⟨⟨a.into_node_config, rfl⟩, fun hw => ⟨?_, ?_, rfl, ?_⟩⟩
  · rw [into_node_config_genesis]
    exact saturatingMul_le _ _
  · rw [into_node_config_port]
    exact hw.1
  · rw [account_generator_eq]
    exact hw.2.1

/-- Witness for C10 at the default argument record. -/
theorem into_node_config_total_witness :
    (∃ c : NodeConfig, exampleArgs.into_node_config = c) ∧
    ((exampleArgs.into_node_config).genesis_balance ≤ U256_MAX ∧
      (exampleArgs.into_node_config).port < 2 ^ 16 ∧
      (exampleArgs.into_node_config).account_generator =
        some exampleArgs.account_generator ∧
      (exampleArgs.account_generator).amount < 2 ^ 64) :=
  ⟨(into_node_config_total exampleArgs).1,
    (into_node_config_total exampleArgs).2 (by unfold NodeArgs.WF; decide)⟩

/-- Claim C6: validation fails, with an error naming both flags,
exactly when both an interval-mining period and disabled-mining are
supplied; either flag alone passes. -/
theorem mining_mutual_exclusion (bt : Option Nat) (nm : Bool) :
    (validateMining bt nm = Except.ok () ↔ ¬(bt.isSome = true ∧ nm = true)) ∧
    (bt.isSome = true → nm = true →
      ∃ pre mid, validateMining bt nm =
        Except.error (pre ++ "block-time" ++ mid ++ "no-mining")) := by
  cases bt <;> cases nm <;>
    simp [validateMining] <;>
    exact ⟨"error: the argument --", " cannot be used with --", rfl⟩

/-- Witness for C6 with both flags supplied. -/
theorem mining_mutual_exclusion_witness :
    (validateMining (some 5) true = Except.ok () ↔
      ¬((some 5 : Option Nat).isSome = true ∧ true = true)) ∧
    (∃ pre mid, validateMining (some 5) true =
      Except.error (pre ++ "block-time" ++ mid ++ "no-mining")) :=
  ⟨(mining_mutual_exclusion (some 5) true).1,
    (mining_mutual_exclusion (some 5) true).2 rfl rfl⟩

/-- Claim C7: without a fork endpoint, supplying any of the fork block
number, the fork retry backoff, or cache-disable fails validation with
a "requires fork endpoint" error naming the offending flag; with a fork
endpoint supplied, validation passes. -/
theorem fork_requires_endpoint (e : AnvilEvmArgs) :
    (e.fork_url.isSome = true → validateForkDeps e = Except.ok ()) ∧
    (e.fork_url = none →
      (validateForkDeps e = Except.ok () ↔
        e.fork_block_number = none ∧ e.fork_retry_backoff = none ∧
          e.no_storage_caching = false)) ∧
    (e.fork_url = none → e.fork_block_number.isSome = true →
      ∃ s, validateForkDeps e =
        Except.error ("--fork-block-number requires fork endpoint" ++ s)) ∧
    (e.fork_url = none → e.fork_block_number = none →
        e.fork_retry_backoff.isSome = true →
      ∃ s, validateForkDeps e =
        Except.error ("--fork-retry-backoff requires fork endpoint" ++ s)) ∧
    (e.fork_url = none → e.fork_block_number = none →
        e.fork_retry_backoff = none → e.no_storage_caching = true →
      ∃ s, validateForkDeps e =
        Except.error ("--no-storage-caching requires fork endpoint" ++ s)) := by
  obtain ⟨fu, fbn, frb, nsc, gl, gp, bf, ci⟩ := e
  cases fu <;> cases fbn <;> cases frb <;> cases nsc <;>
    simp [validateForkDeps] <;>
    exact ⟨" --fork-url", rfl⟩

/-- Witness for C7 with a fork block number but no fork endpoint. -/
theorem fork_requires_endpoint_witness :
    ∃ s, validateForkDeps
        { fork_url := none
          fork_block_number := some 1
          fork_retry_backoff := none
          no_storage_caching := false
          gas_limit := none
          gas_price := none
          block_base_fee_per_gas := none
          chain_id := none } =
      Except.error ("--fork-block-number requires fork endpoint" ++ s) :=
  (fork_requires_endpoint
    { fork_url := none
      fork_block_number := some 1
      fork_retry_backoff := none
      no_storage_caching := false
      gas_limit := none
      gas_price := none
      block_base_fee_per_gas := none
      chain_id := none }).2.2.1 rfl rfl

/-- Claim C8: in the run sequence the configuration is built and the
runtime spawned with it strictly before the interrupt handler is armed,
and the handler-arming event does occur — so no interrupt is acted upon
before the runtime exists. -/
theorem run_order_spawn_before_arm :
    runTrace.indexOf RunEvent.buildConfig < runTrace.indexOf RunEvent.spawnRuntime ∧
    runTrace.indexOf RunEvent.spawnRuntime < runTrace.indexOf RunEvent.armHandler ∧
    RunEvent.armHandler ∈ runTrace := by decide
